import Mathlib

/-!
Verification development for the ESG auditing core:
`src/core/reportingEngine.ts` (`processAuditData`, later "data-driven"
revision at lines 112-213 of the packed file — the earlier revision at
lines 14-97, which pre-seeded blueprint metrics with zeros, is the
superseded "ghost metric" revision), `src/unnamed/part_000`
(`verifyPipeline`), and `src/unnamed/part_002` (`repairPipelineDSL`,
provider-backed path plus the deterministic fallback of the revision at
lines 225-279).

Modelling conventions:
* JS numbers are embedded as `ℚ` (exact rational arithmetic; every
  comparison appearing in the claims is exact at the inputs concerned).
* A JS object used as a dictionary is an insertion-ordered association
  list `List (String × α)`; `jsGet` is property lookup and `jsSet` is
  property assignment (update in place if the key exists, else append),
  matching JS enumeration order for non-index string keys.
* `undefined`-able values are `Option`s.
-/

namespace Esg

/-- Property lookup on a JS-object association list. -/
def jsGet {α : Type} : List (String × α) → String → Option α
  | [], _ => none
  | (k1, v1) :: t, k => if k1 = k then some v1 else jsGet t k

/-- Property assignment on a JS-object association list: overwrite the
first (in well-formed objects, the only) entry with the key, else append. -/
def jsSet {α : Type} : List (String × α) → String → α → List (String × α)
  | [], k, v => [(k, v)]
  | (k1, v1) :: t, k, v => if k1 = k then (k1, v) :: t else (k1, v1) :: jsSet t k v

/-! ## Data model (src/types.ts) -/

/-- A value in a `FileResult.metrics` record: `number | string`. -/
inductive MetricValue
  | num (q : ℚ)
  | str (s : String)
deriving DecidableEq, Repr

structure Validation where
  errors : List String
  warnings : List String
  risks_flagged : List String
deriving DecidableEq, Repr

structure FileResult where
  file_id : String
  filename : String
  pipeline_id : String
  success : Bool
  metrics : List (String × MetricValue)
  validation : Validation
  timing_ms : ℚ
  hash : String
deriving DecidableEq, Repr

structure RequiredMetric where
  metric_id : String
  formula_hint : String
  unit : String
deriving DecidableEq, Repr

/-- The blueprint fields read by the core (`processAuditData` reads only
`required_metrics`; `id` and `approved` are carried for fidelity). -/
structure AuditBlueprint where
  id : String
  required_metrics : List RequiredMetric
  approved : Bool
deriving DecidableEq, Repr

structure MetricAggregate where
  metric_id : String
  total : ℚ
  unit : String
  count : ℕ
  anomalies_detected : ℕ
deriving DecidableEq, Repr

inductive ComplianceOpinion
  | PASS
  | CONDITIONAL
  | FAIL
deriving DecidableEq, Repr

inductive ActionKind
  | ticket
  | notify
  | reprocess
deriving DecidableEq, Repr

inductive Priority
  | high
  | medium
  | low
deriving DecidableEq, Repr

structure ActionPayload where
  kind : ActionKind
  description : String
  priority : Priority
  topic : String
deriving DecidableEq, Repr

structure TopRisk where
  risk : String
  count : ℕ
deriving DecidableEq, Repr

structure QualitySummary where
  avg_confidence : ℚ
  error_rate : ℚ
  anomalies : List String
  top_risks : List TopRisk
deriving DecidableEq, Repr

structure BatchSummary where
  total_files : ℕ
  processed : ℕ
  success_count : ℕ
  fail_count : ℕ
  metric_aggregates : List (String × MetricAggregate)
  quality_summary : QualitySummary
  failure_breakdown : List (String × ℕ)
deriving DecidableEq, Repr

structure AuditOutput where
  summary : BatchSummary
  readinessScore : ℚ
  opinion : ComplianceOpinion
  actions : List ActionPayload
deriving DecidableEq, Repr

/-! ## reportingEngine.ts: processAuditData (lines 112-213) -/

/-- Unit for a freshly created aggregate:
`blueprintMetric?.unit || 'N/A'` (JS `||`: empty string also falls back). -/
def unitFor (bp : AuditBlueprint) (key : String) : String :=
  match bp.required_metrics.find? (fun m => m.metric_id = key) with
  | some m => if m.unit = "" then "N/A" else m.unit
  | none => "N/A"

/-- One `Object.entries(res.metrics)` iteration step of the aggregation
loop (lines 123-140): numeric values create the aggregate on first sight
and accumulate into `total`/`count`; non-numbers are skipped. -/
def aggStep (bp : AuditBlueprint) (aggs : List (String × MetricAggregate))
    (kv : String × MetricValue) : List (String × MetricAggregate) :=
  match kv.2 with
  | .num v =>
    let aggs1 :=
      match jsGet aggs kv.1 with
      | some _ => aggs
      | none => jsSet aggs kv.1 ⟨kv.1, 0, unitFor bp kv.1, 0, 0⟩
    match jsGet aggs1 kv.1 with
    | some a => jsSet aggs1 kv.1 ⟨a.metric_id, a.total + v, a.unit, a.count + 1, a.anomalies_detected⟩
    | none => aggs1
  | .str _ => aggs

/-- Field `metric_aggregates`: fold of `aggStep` over the successful results. -/
def buildAggregates (bp : AuditBlueprint) (succ : List FileResult) :
    List (String × MetricAggregate) :=
  succ.foldl (fun aggs res => res.metrics.foldl (aggStep bp) aggs) []

/-- Category key `res.validation.errors[0] || "Unknown Processing Error"` —
JS `||`: the fallback fires when the first error is absent *or* `""`. -/
def failureCategory (res : FileResult) : String :=
  match res.validation.errors.head? with
  | some e => if e = "" then "Unknown Processing Error" else e
  | none => "Unknown Processing Error"

/-- Field `failure_breakdown` (lines 143-147): tally of failure categories over
the failed results. -/
def buildBreakdown (failed : List FileResult) : List (String × ℕ) :=
  failed.foldl
    (fun fb res => jsSet fb (failureCategory res) ((jsGet fb (failureCategory res)).getD 0 + 1))
    []

/-- Anomaly and risk aggregation (lines 150-158): per successful result,
warnings become `[WARN] …` entries, then each risk becomes a `[RISK] …`
entry and bumps the risk counter. -/
def collectStep (st : List String × List (String × ℕ)) (res : FileResult) :
    List String × List (String × ℕ) :=
  let afterWarn := st.1 ++ res.validation.warnings.map (fun w => "[WARN] " ++ w)
  res.validation.risks_flagged.foldl
    (fun st2 risk =>
      (st2.1 ++ ["[RISK] " ++ risk], jsSet st2.2 risk ((jsGet st2.2 risk).getD 0 + 1)))
    (afterWarn, st.2)

def collectAnomalies (succ : List FileResult) : List String × List (String × ℕ) :=
  succ.foldl collectStep ([], [])

/-- Sort order of `riskCounts.sort((a, b) => b - a)`: count descending.
JS `Array.prototype.sort` is stable, and a stable sort is determined by
the preorder, so Mathlib's stable `insertionSort` computes the same list. -/
def riskGE (a b : String × ℕ) : Prop := b.2 ≤ a.2

instance : DecidableRel riskGE := fun a b => inferInstanceAs (Decidable (b.2 ≤ a.2))

instance : IsTotal (String × ℕ) riskGE := ⟨fun a b => le_total b.2 a.2⟩

instance : IsTrans (String × ℕ) riskGE :=
  ⟨fun _ _ _ h1 h2 => le_trans h2 h1⟩

/-- Local `topRisks` (lines 160-163): sorted tally truncated to the top 3. -/
def topRisksOf (riskCounts : List (String × ℕ)) : List TopRisk :=
  ((riskCounts.insertionSort riskGE).take 3).map (fun p => ⟨p.1, p.2⟩)

/-- Local `coverageRate` (line 166). -/
def coverageRate (totalFiles successCount : ℕ) : ℚ :=
  if totalFiles > 0 then (successCount : ℚ) / (totalFiles : ℚ) * 100 else 0

/-- Local `errorPenalty` (line 167); the divisor is `totalFiles || 1`. -/
def errorPenalty (totalFiles failCount : ℕ) : ℚ :=
  (failCount : ℚ) / ((if totalFiles = 0 then 1 else totalFiles : ℕ) : ℚ) * 50

/-- Local `readinessScore` (line 168). -/
def readinessScoreOf (totalFiles successCount failCount : ℕ) : ℚ :=
  max 0 (min 100 (coverageRate totalFiles successCount - errorPenalty totalFiles failCount))

/-- Compliance opinion (lines 171-176). -/
def opinionOf (score : ℚ) (failCount totalFiles : ℕ) (anomalies : List String) :
    ComplianceOpinion :=
  if score < 60 ∨ (failCount : ℚ) > (totalFiles : ℚ) * (0.2 : ℚ) then .FAIL
  else if score < 85 ∨ anomalies.length > 0 then .CONDITIONAL
  else .PASS

/-- Expression `Object.keys(failureBreakdown)[0] || 'N/A'` (line 183): the *first
inserted* key of the breakdown (JS key enumeration order), not the most
frequent one. -/
def topErrorCited (fb : List (String × ℕ)) : String :=
  match fb.head? with
  | some kv => if kv.1 = "" then "N/A" else kv.1
  | none => "N/A"

/-- Recommended actions (lines 179-195). -/
def actionsOf (failCount : ℕ) (fb : List (String × ℕ)) (topRisks : List TopRisk) :
    List ActionPayload :=
  (if failCount > 0 then
    [⟨.reprocess,
      "Investigate and re-upload " ++ toString failCount ++
        " failed documents. Top error: " ++ topErrorCited fb ++ ".",
      .high, "Data Integrity"⟩]
  else []) ++
  (match topRisks.head? with
   | some tr =>
     [⟨.ticket,
       "Resolve " ++ toString tr.count ++ " instances of the top risk: \"" ++ tr.risk ++ "\".",
       .medium, "Data Quality"⟩]
   | none => [])

/-- Function `processAuditData` (reportingEngine.ts lines 112-213, the live
"data-driven" revision). -/
def processAuditData (bp : AuditBlueprint) (results : List FileResult) : AuditOutput :=
  let totalFiles := results.length
  let successResults := results.filter (fun r => r.success)
  let failedResults := results.filter (fun r => !r.success)
  let failCount := failedResults.length
  let aggregates := buildAggregates bp successResults
  let failureBreakdown := buildBreakdown failedResults
  let collected := collectAnomalies successResults
  let anomalies := collected.1
  let topRisks := topRisksOf collected.2
  let readinessScore := readinessScoreOf totalFiles successResults.length failCount
  let opinion := opinionOf readinessScore failCount totalFiles anomalies
  let actions := actionsOf failCount failureBreakdown topRisks
  { summary :=
      { total_files := totalFiles
        processed := totalFiles
        success_count := successResults.length
        fail_count := failCount
        metric_aggregates := aggregates
        quality_summary :=
          { avg_confidence := (0.92 : ℚ)
            error_rate := (failCount : ℚ) / ((if totalFiles = 0 then 1 else totalFiles : ℕ) : ℚ)
            anomalies := anomalies
            top_risks := topRisks }
        failure_breakdown := failureBreakdown }
    readinessScore := readinessScore
    opinion := opinion
    actions := actions }

/-! ## part_000: verifyPipeline -/

inductive GateState
  | PASS
  | BLOCK
  | PENDING
deriving DecidableEq, Repr

structure GateStatus where
  id : String
  label : String
  status : GateState
deriving DecidableEq, Repr

structure SchemaField where
  key : String
  type : String
  required : Bool
deriving DecidableEq, Repr

structure RepairEntry where
  timestamp : ℕ
  error : Option String
  fix : String
deriving DecidableEq, Repr

structure PipelineSpecDSL where
  pipeline_id : String
  topic : String
  evidence_type : String
  input_schema : List SchemaField
  transformations : List String
  calculations : List String
  validations : List String
  output_metrics : List String
  version : String
  approved : Bool
  repair_history : List RepairEntry
deriving DecidableEq, Repr

structure VerificationResult where
  gates : List GateStatus
  isValid : Bool
  errors : List String
deriving DecidableEq, Repr

/-- Check 1 (lines 22-27): `dsl.evidence_type && dsl.evidence_type.length > 3`
(JS truthiness: non-empty string, plus length strictly above 3). -/
def classificationOk (dsl : PipelineSpecDSL) : Prop :=
  dsl.evidence_type ≠ "" ∧ dsl.evidence_type.length > 3

instance (dsl : PipelineSpecDSL) : Decidable (classificationOk dsl) :=
  inferInstanceAs (Decidable (_ ∧ _))

/-- Check 2 (lines 30-35): `dsl.input_schema && dsl.input_schema.length > 0`. -/
def schemaOk (dsl : PipelineSpecDSL) : Prop := dsl.input_schema.length > 0

instance (dsl : PipelineSpecDSL) : Decidable (schemaOk dsl) :=
  inferInstanceAs (Decidable (_ > _))

/-- Check 3 (lines 38-43): `dsl.output_metrics && dsl.output_metrics.length > 0`. -/
def policyOk (dsl : PipelineSpecDSL) : Prop := dsl.output_metrics.length > 0

instance (dsl : PipelineSpecDSL) : Decidable (policyOk dsl) :=
  inferInstanceAs (Decidable (_ > _))

def classificationMsg : String := "Invalid or missing evidence type classification."
def schemaMsg : String := "Input schema is empty. No fields detected for extraction."
def policyMsg : String := "No output metrics defined. Pipeline will produce no results."

/-- Function `verifyPipeline` (part_000 lines 12-50): three fixed ordered checks;
each gate starts PENDING and is resolved to PASS or BLOCK, BLOCK messages
are pushed onto `errors` in check order, `isValid` is `errors.length === 0`. -/
def verifyPipeline (dsl : PipelineSpecDSL) : VerificationResult :=
  let st1 : GateState := if classificationOk dsl then .PASS else .BLOCK
  let st2 : GateState := if schemaOk dsl then .PASS else .BLOCK
  let st3 : GateState := if policyOk dsl then .PASS else .BLOCK
  let errors :=
    (if classificationOk dsl then [] else [classificationMsg]) ++
    (if schemaOk dsl then [] else [schemaMsg]) ++
    (if policyOk dsl then [] else [policyMsg])
  { gates :=
      [⟨"gate_classification", "Classification Guardrail", st1⟩,
       ⟨"gate_schema", "Schema Coverage Guardrail", st2⟩,
       ⟨"gate_policy", "Policy Alignment Guardrail", st3⟩]
    isValid := errors.length = 0
    errors := errors }

/-! ## part_002: repairPipelineDSL -/

/-- Leading-decimal parse of JS `parseFloat`: an optional integer part,
an optional `.` fraction part, stopping at the first character that does
not extend a decimal literal (so `parseFloat("1.0.0")` reads `1.0`).
`none` models `NaN` (no leading digits at all). Sign and exponent forms
never occur in version strings and are not modelled. -/
def parseLeadingFloat (s : String) : Option ℚ :=
  let cs := s.toList
  let intDigits := cs.takeWhile Char.isDigit
  let rest := cs.dropWhile Char.isDigit
  let fracDigits :=
    match rest with
    | '.' :: r => r.takeWhile Char.isDigit
    | _ => []
  if intDigits.isEmpty ∧ fracDigits.isEmpty then none
  else
    let ip : ℕ := intDigits.foldl (fun n c => n * 10 + (c.toNat - '0'.toNat)) 0
    let fp : ℕ := fracDigits.foldl (fun n c => n * 10 + (c.toNat - '0'.toNat)) 0
    some ((ip : ℚ) + (fp : ℚ) / (10 : ℚ) ^ fracDigits.length)

/-- JS `q.toFixed(1)` for the non-negative exact values produced by the
version bump: round to one decimal and print with exactly one fraction
digit. -/
def toFixed1 (q : ℚ) : String :=
  let n : ℤ := ⌊q * 10 + 1 / 2⌋
  let m := n.natAbs
  (if n < 0 then "-" else "") ++ toString (m / 10) ++ "." ++ toString (m % 10)

/-- Version bump `(parseFloat(currentDsl.version) + 0.1).toFixed(1)`. -/
def bumpVersion (v : String) : String :=
  match parseLeadingFloat v with
  | some q => toFixed1 (q + (0.1 : ℚ))
  | none => "NaN"

/-- The parsed JSON fragment returned by the repair provider: every field
may be absent. `pipeline_id`, `version` and `repair_history` may be
present in the patch but are always overwritten by the explicit
properties placed after the object spread, so they never reach the
result. -/
structure DSLPatch where
  pipeline_id : Option String
  topic : Option String
  evidence_type : Option String
  input_schema : Option (List SchemaField)
  transformations : Option (List String)
  calculations : Option (List String)
  validations : Option (List String)
  output_metrics : Option (List String)
  version : Option String
  approved : Option Bool
  repair_history : Option (List RepairEntry)
deriving DecidableEq, Repr

/-- Runtime shape of the object a repair call returns:
`{...patchOrCopy, pipeline_id, version, repair_history}` — the three
pinned fields are always present; every other field is whatever the
spread supplied (possibly `undefined`, i.e. `none`). -/
structure RepairedSpec where
  pipeline_id : String
  version : String
  repair_history : List RepairEntry
  topic : Option String
  evidence_type : Option String
  input_schema : Option (List SchemaField)
  transformations : Option (List String)
  calculations : Option (List String)
  validations : Option (List String)
  output_metrics : Option (List String)
  approved : Option Bool
deriving DecidableEq, Repr

/-- Provider-backed path of `repairPipelineDSL` (part_002 lines 249-258;
identically lines 453-462 of the later revision, which names the identity
field `pipeline_id` as `src/types.ts` does — the earlier revision calls
it `id`): spread the provider patch, then pin identity, bumped version
and the appended history entry. Everything else — `approved` included —
comes from the patch. -/
def repairProviderPath (cur : PipelineSpecDSL) (patch : DSLPatch)
    (errors : List String) (now : ℕ) : RepairedSpec :=
  { pipeline_id := cur.pipeline_id
    version := bumpVersion cur.version
    repair_history := cur.repair_history ++ [⟨now, errors.head?, "AI-Generated Repair"⟩]
    topic := patch.topic
    evidence_type := patch.evidence_type
    input_schema := patch.input_schema
    transformations := patch.transformations
    calculations := patch.calculations
    validations := patch.validations
    output_metrics := patch.output_metrics
    approved := patch.approved }

/-- JS `haystack.includes(needle)`. -/
def jsIncludes (haystack needle : String) : Bool :=
  decide (needle.toList <:+: haystack.toList)

/-- Deterministic fallback path of `repairPipelineDSL` (part_002 lines
261-277): copy the current spec, push a dummy field if some error mentions
"schema", reset `output_metrics` if some error mentions "metrics", then
pin identity, bumped version and the appended history entry. -/
def repairFallbackPath (cur : PipelineSpecDSL) (errors : List String) (now : ℕ) :
    RepairedSpec :=
  let schema1 :=
    if errors.any (fun e => jsIncludes e "schema") then
      cur.input_schema ++ [⟨"repaired_field", "string", false⟩]
    else cur.input_schema
  let metrics1 :=
    if errors.any (fun e => jsIncludes e "metrics") then ["scope1_fuel_combustion"]
    else cur.output_metrics
  { pipeline_id := cur.pipeline_id
    version := bumpVersion cur.version
    repair_history := cur.repair_history ++ [⟨now, errors.head?, "Demo-Mode Heuristic Repair"⟩]
    topic := some cur.topic
    evidence_type := some cur.evidence_type
    input_schema := some schema1
    transformations := some cur.transformations
    calculations := some cur.calculations
    validations := some cur.validations
    output_metrics := some metrics1
    approved := some cur.approved }

/-! ## Specification helpers and concrete scenario inputs -/

/-- The numeric values recorded at key `k` in one metrics record, in
entry order. -/
def numsOf (ms : List (String × MetricValue)) (k : String) : List ℚ :=
  ms.filterMap (fun kv =>
    match kv.2 with
    | .num v => if kv.1 = k then some v else none
    | .str _ => none)

/-- The numeric values observed at key `k` across the successful results
of a batch, in processing order. -/
def numericsAt (results : List FileResult) (k : String) : List ℚ :=
  (results.filter (fun r => r.success)).flatMap (fun r => numsOf r.metrics k)

/-- Effect of accumulating the numeric stream `l` at key `k` on top of an
existing aggregate entry (or none). -/
def aggAfter (bp : AuditBlueprint) (k : String) (o : Option MetricAggregate) (l : List ℚ) :
    Option MetricAggregate :=
  match o with
  | some a => some ⟨a.metric_id, a.total + l.sum, a.unit, a.count + l.length, a.anomalies_detected⟩
  | none =>
    if l = [] then none else some ⟨k, l.sum, unitFor bp k, l.length, 0⟩

/-- The concrete spec of the C4 scenario: `evidence_type="ab"`,
`input_schema=[]`, `output_metrics=[]`. -/
def allBlockDsl : PipelineSpecDSL :=
  { pipeline_id := "pipe_demo", topic := "E1", evidence_type := "ab",
    input_schema := [], transformations := [], calculations := [],
    validations := [], output_metrics := [], version := "1.0.0",
    approved := false, repair_history := [] }

/-- The C3 failing scenario: a pre-repair spec that is not approved. -/
def unapprovedDsl : PipelineSpecDSL :=
  { pipeline_id := "pipe_1", topic := "E1", evidence_type := "Electricity Invoice",
    input_schema := [⟨"kwh", "number", true⟩], transformations := [],
    calculations := [], validations := [], output_metrics := [],
    version := "1.0.0", approved := false, repair_history := [] }

/-- A provider patch that sets `approved` to `true`. -/
def approvingPatch : DSLPatch :=
  { pipeline_id := none, topic := none, evidence_type := none, input_schema := none,
    transformations := none, calculations := none, validations := none,
    output_metrics := some ["m"], version := none, approved := some true,
    repair_history := none }

/-- A provider patch that omits `approved` altogether. -/
def silentPatch : DSLPatch :=
  { pipeline_id := none, topic := none, evidence_type := none, input_schema := none,
    transformations := none, calculations := none, validations := none,
    output_metrics := some ["m"], version := none, approved := none,
    repair_history := none }

/-- A failed result whose validation carries a single empty-string error. -/
def emptyErrorResult : FileResult :=
  { file_id := "f1", filename := "a.pdf", pipeline_id := "p", success := false,
    metrics := [], validation := ⟨[""], [], []⟩, timing_ms := 0, hash := "h" }

def emptyBlueprint : AuditBlueprint :=
  { id := "bp", required_metrics := [], approved := false }

/-- Failed results for the C7 scenario: first-seen category "A" occurs
once, category "B" (seen later) twice. -/
def failedResultA : FileResult :=
  { file_id := "f1", filename := "a.pdf", pipeline_id := "p", success := false,
    metrics := [], validation := ⟨["A"], [], []⟩, timing_ms := 0, hash := "h1" }

def failedResultB1 : FileResult :=
  { file_id := "f2", filename := "b1.pdf", pipeline_id := "p", success := false,
    metrics := [], validation := ⟨["B"], [], []⟩, timing_ms := 0, hash := "h2" }

def failedResultB2 : FileResult :=
  { file_id := "f3", filename := "b2.pdf", pipeline_id := "p", success := false,
    metrics := [], validation := ⟨["B"], [], []⟩, timing_ms := 0, hash := "h3" }

/-! ## Basic lemmas on the JS-object model -/

theorem jsGet_jsSet_self {α : Type} (m : List (String × α)) (k : String) (v : α) :
    jsGet (jsSet m k v) k = some v := by
  induction m with
  | nil => simp [jsGet, jsSet]
  | cons h t ih =>
    obtain ⟨k1, v1⟩ := h
    by_cases hk : k1 = k <;> simp [jsGet, jsSet, hk, ih]

theorem jsGet_jsSet_ne {α : Type} (m : List (String × α)) (k k2 : String) (v : α)
    (h : k ≠ k2) : jsGet (jsSet m k v) k2 = jsGet m k2 := by
  induction m with
  | nil => simp [jsGet, jsSet, h]
  | cons hd t ih =>
    obtain ⟨k1, v1⟩ := hd
    by_cases hk : k1 = k
    · subst hk
      simp [jsGet, jsSet, h]
    · simp [jsGet, jsSet, hk, ih]

/-! ## Theorems: GateVerifier -/

/-- C4: `verifyPipeline` runs exactly the 3 checks in the fixed order
classification, schema, policy with the stated PASS conditions; `isValid`
is true iff no gate is BLOCK; `errors` is the ordered list of the exact
contractual BLOCK messages in check order; and on the all-failing spec
(`evidence_type="ab"`, empty schema, empty metrics) all 3 gates BLOCK,
`isValid=false` and `errors` is the 3 messages in order. -/
theorem verifyPipeline_contract (dsl : PipelineSpecDSL) :
    (verifyPipeline dsl).gates.map (fun g => (g.id, g.label, g.status)) =
      [("gate_classification", "Classification Guardrail",
          if dsl.evidence_type ≠ "" ∧ dsl.evidence_type.length > 3
          then GateState.PASS else GateState.BLOCK),
       ("gate_schema", "Schema Coverage Guardrail",
          if dsl.input_schema.length > 0 then GateState.PASS else GateState.BLOCK),
       ("gate_policy", "Policy Alignment Guardrail",
          if dsl.output_metrics.length > 0 then GateState.PASS else GateState.BLOCK)] ∧
    ((verifyPipeline dsl).isValid = true ↔
      ∀ g ∈ (verifyPipeline dsl).gates, g.status ≠ GateState.BLOCK) ∧
    (verifyPipeline dsl).errors =
      (if dsl.evidence_type ≠ "" ∧ dsl.evidence_type.length > 3
       then [] else ["Invalid or missing evidence type classification."]) ++
      (if dsl.input_schema.length > 0
       then [] else ["Input schema is empty. No fields detected for extraction."]) ++
      (if dsl.output_metrics.length > 0
       then [] else ["No output metrics defined. Pipeline will produce no results."]) ∧
    verifyPipeline allBlockDsl =
      { gates := [⟨"gate_classification", "Classification Guardrail", .BLOCK⟩,
                  ⟨"gate_schema", "Schema Coverage Guardrail", .BLOCK⟩,
                  ⟨"gate_policy", "Policy Alignment Guardrail", .BLOCK⟩],
        isValid := false,
        errors := ["Invalid or missing evidence type classification.",
                   "Input schema is empty. No fields detected for extraction.",
                   "No output metrics defined. Pipeline will produce no results."] } := by
  refine ⟨?_, ?_, ?_, by decide⟩
  · by_cases h1 : classificationOk dsl <;> by_cases h2 : schemaOk dsl <;>
      by_cases h3 : policyOk dsl <;>
      simp [verifyPipeline, classificationOk, schemaOk, policyOk,
        classificationMsg, schemaMsg, policyMsg, h1, h2, h3] at *
  · by_cases h1 : classificationOk dsl <;> by_cases h2 : schemaOk dsl <;>
      by_cases h3 : policyOk dsl <;>
      simp [verifyPipeline, classificationOk, schemaOk, policyOk,
        classificationMsg, schemaMsg, policyMsg, h1, h2, h3] at *
  · by_cases h1 : classificationOk dsl <;> by_cases h2 : schemaOk dsl <;>
      by_cases h3 : policyOk dsl <;>
      simp [verifyPipeline, classificationOk, schemaOk, policyOk,
        classificationMsg, schemaMsg, policyMsg, h1, h2, h3] at *

/-- C10: in every result of `verifyPipeline` no gate is left PENDING —
each of the 3 gates is PASS or BLOCK — `errors.length` equals the number
of BLOCK gates, and `isValid` is true iff `errors` is empty. -/
theorem verifyPipeline_no_pending (dsl : PipelineSpecDSL) :
    (∀ g ∈ (verifyPipeline dsl).gates,
        g.status = GateState.PASS ∨ g.status = GateState.BLOCK) ∧
    (verifyPipeline dsl).gates.length = 3 ∧
    (verifyPipeline dsl).errors.length =
      ((verifyPipeline dsl).gates.filter (fun g => g.status = GateState.BLOCK)).length ∧
    ((verifyPipeline dsl).isValid = true ↔ (verifyPipeline dsl).errors = []) := by
  by_cases h1 : classificationOk dsl <;> by_cases h2 : schemaOk dsl <;>
    by_cases h3 : policyOk dsl <;>
    simp [verifyPipeline, h1, h2, h3]

/-! ## Theorems: RepairCoordinator -/

theorem bumpVersion_100 : bumpVersion "1.0.0" = "1.1" := by
  have hp : parseLeadingFloat "1.0.0" = some ((1 : ℚ) + (0 : ℚ) / 10 ^ 1) := rfl
  have hq : ((1 : ℚ) + (0 : ℚ) / 10 ^ 1 + 0.1) * 10 + 1 / 2 = 23 / 2 := by norm_num
  have hf : (⌊(23 : ℚ) / 2⌋ : ℤ) = 11 := by norm_num
  simp only [bumpVersion, hp, toFixed1, hq, hf]
  decide

/-- C2: for every spec at version "1.0.0" and non-empty error list, the
repaired spec keeps the pre-repair identity (never the patch's, whatever
the patch carries), has version "1.1" (the fixed +0.1 bump with
one-decimal formatting, independent of the patch), and its
`repair_history` is the pre-repair history with exactly one appended
entry `{timestamp, error: first triggering error, fix}` — on the
provider-backed path and on the deterministic fallback path alike. -/
theorem repair_version_identity_history (cur : PipelineSpecDSL) (patch : DSLPatch)
    (errors : List String) (now : ℕ) (hv : cur.version = "1.0.0") (he : errors ≠ []) :
    ∃ e, errors.head? = some e ∧
      (repairProviderPath cur patch errors now).pipeline_id = cur.pipeline_id ∧
      (repairProviderPath cur patch errors now).version = "1.1" ∧
      (repairProviderPath cur patch errors now).repair_history =
        cur.repair_history ++ [⟨now, some e, "AI-Generated Repair"⟩] ∧
      (repairProviderPath cur patch errors now).repair_history.length =
        cur.repair_history.length + 1 ∧
      (repairFallbackPath cur errors now).pipeline_id = cur.pipeline_id ∧
      (repairFallbackPath cur errors now).version = "1.1" ∧
      (repairFallbackPath cur errors now).repair_history =
        cur.repair_history ++ [⟨now, some e, "Demo-Mode Heuristic Repair"⟩] ∧
      (repairFallbackPath cur errors now).repair_history.length =
        cur.repair_history.length + 1 := by
  obtain ⟨e, rest, rfl⟩ : ∃ e rest, errors = e :: rest := by
    cases errors with
    | nil => exact absurd rfl he
    | cons e rest => exact ⟨e, rest, rfl⟩
  refine ⟨e, rfl, rfl, ?_, rfl, by simp [repairProviderPath], rfl, ?_, rfl,
    by simp [repairFallbackPath]⟩
  · simp [repairProviderPath, hv, bumpVersion_100]
  · simp [repairFallbackPath, hv, bumpVersion_100]

theorem repair_version_identity_history_witness :
    ∃ cur : PipelineSpecDSL, ∃ errors : List String,
      cur.version = "1.0.0" ∧ errors ≠ [] ∧
      ∃ e, errors.head? = some e ∧
        (repairProviderPath cur
            ⟨none, none, none, none, none, none, none, none, none, none, none⟩
            errors 7).pipeline_id = cur.pipeline_id ∧
        (repairProviderPath cur
            ⟨none, none, none, none, none, none, none, none, none, none, none⟩
            errors 7).version = "1.1" := by
  refine ⟨allBlockDsl, ["Input schema is empty. No fields detected for extraction."],
    rfl, by decide, ?_⟩
  obtain ⟨e, he, h1, h2, _⟩ :=
    repair_version_identity_history allBlockDsl
      ⟨none, none, none, none, none, none, none, none, none, none, none⟩
      ["Input schema is empty. No fields detected for extraction."] 7 rfl (by decide)
  exact ⟨e, he, h1, h2⟩

/-- C3 fails on the code: on the provider-backed path the returned
object is `{...patch, id, version, repair_history}` — `approved` is *not*
pinned after the spread, so it is whatever the patch supplies. With a
patch carrying `approved: true` the unapproved pre-repair spec comes back
approved; with a patch omitting `approved` the flag comes back
`undefined`. Only the fallback path preserves it. -/
theorem repair_approved_from_patch :
    unapprovedDsl.approved = false ∧
    (repairProviderPath unapprovedDsl approvingPatch
        ["No output metrics defined. Pipeline will produce no results."] 7).approved
      = some true ∧
    (repairProviderPath unapprovedDsl silentPatch
        ["No output metrics defined. Pipeline will produce no results."] 7).approved
      = none ∧
    (repairFallbackPath unapprovedDsl
        ["No output metrics defined. Pipeline will produce no results."] 7).approved
      = some false := by
  refine ⟨rfl, rfl, rfl, rfl⟩

/-! ## Theorems: FailureBreakdown -/

theorem buildBreakdown_go (l : List FileResult) (fb : List (String × ℕ)) (k : String) :
    jsGet
        (l.foldl
          (fun fb res =>
            jsSet fb (failureCategory res) ((jsGet fb (failureCategory res)).getD 0 + 1))
          fb) k =
      match jsGet fb k, (l.filter (fun r => failureCategory r = k)).length with
      | some m, n => some (m + n)
      | none, 0 => none
      | none, n => some n := by
  induction l generalizing fb with
  | nil =>
    cases h : jsGet fb k <;> simp [h]
  | cons r t ih =>
    by_cases hk : failureCategory r = k
    · rw [List.foldl_cons, ih]
      rw [hk, jsGet_jsSet_self]
      cases h : jsGet fb k <;>
        simp [h, hk, List.filter_cons] <;> omega
    · rw [List.foldl_cons, ih]
      rw [jsGet_jsSet_ne _ _ _ _ hk]
      cases h : jsGet fb k <;> simp [h, hk, List.filter_cons]

/-- C9 as stated is false: the code uses `||`, not `??`. This failed
result *has* a first validation error (the empty string), yet the
breakdown files it under the fallback literal and has no `""` key at
all — under the claimed `??` semantics `""` would have stayed its own
key. -/
theorem failure_breakdown_empty_string_cx :
    emptyErrorResult.success = false ∧
    emptyErrorResult.validation.errors.head? = some "" ∧
    (processAuditData emptyBlueprint [emptyErrorResult]).summary.failure_breakdown =
      [("Unknown Processing Error", 1)] ∧
    jsGet (processAuditData emptyBlueprint [emptyErrorResult]).summary.failure_breakdown ""
      = none := by
  refine ⟨rfl, rfl, by decide, by decide⟩

/-- C9 amended: for every failed result the breakdown key is the first
validation error if it is present *and non-empty*, else the fallback
literal "Unknown Processing Error" (JS `||` semantics, under which a
present but empty-string first error also falls back); each key's value
equals the number of failed results mapping to that key, and keys with
no such result are absent. -/
theorem failure_breakdown_lookup (bp : AuditBlueprint) (results : List FileResult)
    (k : String) :
    (∀ r : FileResult,
      (r.validation.errors.head? = none ∨ r.validation.errors.head? = some "" →
        failureCategory r = "Unknown Processing Error") ∧
      (∀ e, e ≠ "" → r.validation.errors.head? = some e → failureCategory r = e)) ∧
    jsGet (processAuditData bp results).summary.failure_breakdown k =
      (if ((results.filter (fun r => !r.success)).filter
            (fun r => failureCategory r = k)).length = 0
       then none
       else some ((results.filter (fun r => !r.success)).filter
            (fun r => failureCategory r = k)).length) := by
  constructor
  · intro r
    constructor
    · rintro (h | h) <;> simp [failureCategory, h]
    · intro e he h
      simp [failureCategory, h, he]
  · show jsGet (buildBreakdown (results.filter (fun r => !r.success))) k = _
    rw [buildBreakdown, buildBreakdown_go]
    cases h : ((results.filter (fun r => !r.success)).filter
        (fun r => failureCategory r = k)).length <;>
      simp [jsGet, h]

/-! ## Theorems: MetricAggregator -/

theorem aggAfter_append (bp : AuditBlueprint) (k : String) (o : Option MetricAggregate)
    (l1 l2 : List ℚ) :
    aggAfter bp k (aggAfter bp k o l1) l2 = aggAfter bp k o (l1 ++ l2) := by
  cases o with
  | some a => simp [aggAfter, add_assoc]
  | none =>
    by_cases h1 : l1 = []
    · simp [aggAfter, h1]
    · by_cases h2 : l2 = [] <;> simp [aggAfter, h1, h2, List.append_eq_nil]

theorem aggStep_fold (bp : AuditBlueprint) (ms : List (String × MetricValue))
    (aggs : List (String × MetricAggregate)) (k : String) :
    jsGet (ms.foldl (aggStep bp) aggs) k = aggAfter bp k (jsGet aggs k) (numsOf ms k) := by
  induction ms generalizing aggs with
  | nil => cases h : jsGet aggs k <;> simp [aggAfter, h, numsOf]
  | cons kv t ih =>
    obtain ⟨key, val⟩ := kv
    cases val with
    | str s => rw [List.foldl_cons, ih]; simp [aggStep, numsOf]
    | num v =>
      by_cases hk : key = k
      · subst hk
        rw [List.foldl_cons, ih]
        cases h : jsGet aggs key with
        | none =>
          simp only [aggStep, h, jsGet_jsSet_self]
          simp [aggAfter, numsOf, List.filterMap_cons, Nat.one_add]
        | some a =>
          simp only [aggStep, h, jsGet_jsSet_self]
          simp [aggAfter, numsOf, List.filterMap_cons, add_assoc, Nat.one_add]
      · rw [List.foldl_cons, ih]
        have hstep : jsGet (aggStep bp aggs (key, .num v)) k = jsGet aggs k := by
          simp only [aggStep]
          cases h : jsGet aggs key with
          | some a => simp only [h]; rw [jsGet_jsSet_ne _ _ _ _ hk]
          | none =>
            simp only [h, jsGet_jsSet_self]
            rw [jsGet_jsSet_ne _ _ _ _ hk, jsGet_jsSet_ne _ _ _ _ hk]
        rw [hstep]
        simp [numsOf, List.filterMap_cons, hk]

theorem buildAggregates_lookup (bp : AuditBlueprint) (succ : List FileResult) (k : String) :
    jsGet (buildAggregates bp succ) k =
      aggAfter bp k none (succ.flatMap (fun r => numsOf r.metrics k)) := by
  suffices h : ∀ aggs, jsGet (succ.foldl (fun aggs res => res.metrics.foldl (aggStep bp) aggs) aggs) k
      = aggAfter bp k (jsGet aggs k) (succ.flatMap (fun r => numsOf r.metrics k)) by
    rw [buildAggregates, h [], jsGet]
  induction succ with
  | nil => intro aggs; cases h : jsGet aggs k <;> simp [aggAfter, h]
  | cons r t ih =>
    intro aggs
    rw [List.foldl_cons, ih, aggStep_fold, aggAfter_append]
    simp

/-- C1: the key set of `summary.metric_aggregates` is exactly the set of
metric-ids with at least one numeric value in at least one successful
result — a blueprint-required metric never observed numerically in a
successful result is absent (no ghost zero entry) — and each present
aggregate's `total`/`count` are the sum/number of exactly the numeric
values taken from successful results (unit from the blueprint, "N/A"
fallback, `anomalies_detected` 0). -/
theorem metric_aggregates_exact (bp : AuditBlueprint) (results : List FileResult)
    (k : String) :
    jsGet (processAuditData bp results).summary.metric_aggregates k =
      (if numericsAt results k = [] then none
       else some ⟨k, (numericsAt results k).sum, unitFor bp k,
                  (numericsAt results k).length, 0⟩) := by
  show jsGet (buildAggregates bp (results.filter (fun r => r.success))) k = _
  rw [buildAggregates_lookup]
  rfl

/-! ## Theorems: RiskTally / topRisks -/

/-- Generic tally-fold lookup: after folding `jsSet`-increments keyed by
`cat` over `l`, the entry at `k` holds the prior value plus the number of
elements mapping to `k` (absent iff never touched). -/
theorem tally_fold_go {α : Type} (cat : α → String) (l : List α)
    (fb : List (String × ℕ)) (k : String) :
    jsGet (l.foldl (fun fb x => jsSet fb (cat x) ((jsGet fb (cat x)).getD 0 + 1)) fb) k =
      match jsGet fb k, (l.filter (fun x => cat x = k)).length with
      | some m, n => some (m + n)
      | none, 0 => none
      | none, n => some n := by
  induction l generalizing fb with
  | nil =>
    cases h : jsGet fb k <;> simp [h]
  | cons r t ih =>
    by_cases hk : cat r = k
    · rw [List.foldl_cons, ih]
      rw [hk, jsGet_jsSet_self]
      cases h : jsGet fb k <;>
        simp [h, hk, List.filter_cons] <;> omega
    · rw [List.foldl_cons, ih]
      rw [jsGet_jsSet_ne _ _ _ _ hk]
      cases h : jsGet fb k <;> simp [h, hk, List.filter_cons]

theorem pair_fold_snd (rs : List String) (a0 : List String) (c0 : List (String × ℕ)) :
    (rs.foldl
        (fun st2 risk =>
          (st2.1 ++ ["[RISK] " ++ risk], jsSet st2.2 risk ((jsGet st2.2 risk).getD 0 + 1)))
        (a0, c0)).2 =
      rs.foldl (fun c risk => jsSet c risk ((jsGet c risk).getD 0 + 1)) c0 := by
  induction rs generalizing a0 c0 with
  | nil => rfl
  | cons x xs ih => rw [List.foldl_cons, List.foldl_cons]; exact ih _ _

/-- The second component of the anomaly/risk fold is the plain risk
tally over the concatenated `risks_flagged` streams. -/
theorem collect_snd (l : List FileResult) (st : List String × List (String × ℕ)) :
    (l.foldl collectStep st).2 =
      (l.flatMap (fun r => r.validation.risks_flagged)).foldl
        (fun c risk => jsSet c risk ((jsGet c risk).getD 0 + 1)) st.2 := by
  induction l generalizing st with
  | nil => rfl
  | cons r t ih =>
    rw [List.foldl_cons, ih, List.flatMap_cons, List.foldl_append]
    congr 1
    exact pair_fold_snd r.validation.risks_flagged _ st.2

theorem filter_orderedInsert (a : String × ℕ) (s : List (String × ℕ))
    (hs : s.Sorted riskGE) (c : ℕ) :
    (s.orderedInsert riskGE a).filter (fun p => p.2 = c) =
      if a.2 = c then a :: s.filter (fun p => p.2 = c)
      else s.filter (fun p => p.2 = c) := by
  induction s with
  | nil => by_cases h : a.2 = c <;> simp [List.orderedInsert, h]
  | cons b t ih =>
    rw [List.sorted_cons] at hs
    rw [List.orderedInsert]
    by_cases hab : riskGE a b
    · rw [if_pos hab]
      by_cases h : a.2 = c <;> simp [List.filter_cons, h]
    · rw [if_neg hab]
      have hlt : a.2 < b.2 := by
        simp only [riskGE, not_le] at hab
        exact hab
      rw [List.filter_cons, List.filter_cons, ih hs.2]
      by_cases h : a.2 = c
      · have hb : ¬ b.2 = c := by omega
        simp [h, hb]
      · simp [h]

/-- Stability of the model sort, phrased as the JS guarantee: restricted
to any one count value, the sorted tally lists the risks in first-seen
order. -/
theorem filter_insertionSort (l : List (String × ℕ)) (c : ℕ) :
    (l.insertionSort riskGE).filter (fun p => p.2 = c) =
      l.filter (fun p => p.2 = c) := by
  induction l with
  | nil => rfl
  | cons a t ih =>
    rw [List.insertionSort,
      filter_orderedInsert a _ (List.sorted_insertionSort riskGE t) c]
    by_cases h : a.2 = c <;> simp [List.filter_cons, h, ih]

/-- C8: `top_risks` is the stable count-descending sort of the risk
tally truncated to 3 — so it never exceeds 3 entries, within one count
value the first-seen order is kept, the sorted tally is a permutation of
the tally (sortedness included), the tally entry at a risk is the number
of its occurrences across successful results, and whenever one tally
entry has a strictly highest count it occupies index 0. -/
theorem top_risks_spec (bp : AuditBlueprint) (results : List FileResult) :
    (processAuditData bp results).summary.quality_summary.top_risks =
      ((((collectAnomalies (results.filter (fun r => r.success))).2).insertionSort
          riskGE).take 3).map (fun p => ⟨p.1, p.2⟩) ∧
    (processAuditData bp results).summary.quality_summary.top_risks.length ≤ 3 ∧
    List.Perm
      (((collectAnomalies (results.filter (fun r => r.success))).2).insertionSort riskGE)
      ((collectAnomalies (results.filter (fun r => r.success))).2) ∧
    (((collectAnomalies (results.filter (fun r => r.success))).2).insertionSort
        riskGE).Sorted riskGE ∧
    (∀ c : ℕ,
      ((((collectAnomalies (results.filter (fun r => r.success))).2).insertionSort
          riskGE).filter (fun p => p.2 = c)) =
        ((collectAnomalies (results.filter (fun r => r.success))).2).filter
          (fun p => p.2 = c)) ∧
    (∀ k : String,
      jsGet ((collectAnomalies (results.filter (fun r => r.success))).2) k =
        (if (((results.filter (fun r => r.success)).flatMap
                (fun r => r.validation.risks_flagged)).filter (fun x => x = k)).length = 0
         then none
         else some (((results.filter (fun r => r.success)).flatMap
                (fun r => r.validation.risks_flagged)).filter (fun x => x = k)).length)) ∧
    (∀ p ∈ (collectAnomalies (results.filter (fun r => r.success))).2,
      (∀ q ∈ (collectAnomalies (results.filter (fun r => r.success))).2,
          q ≠ p → q.2 < p.2) →
      (processAuditData bp results).summary.quality_summary.top_risks.head? =
        some ⟨p.1, p.2⟩) := by
  set tally := (collectAnomalies (results.filter (fun r => r.success))).2 with htally
  have hshow : (processAuditData bp results).summary.quality_summary.top_risks =
      topRisksOf tally := rfl
  refine ⟨hshow, ?_, List.perm_insertionSort riskGE tally,
    List.sorted_insertionSort riskGE tally, fun c => filter_insertionSort tally c,
    ?_, ?_⟩
  · rw [hshow, topRisksOf]
    simp
  · intro k
    rw [htally, collectAnomalies, collect_snd]
    have := tally_fold_go (fun s => s)
      ((results.filter (fun r => r.success)).flatMap (fun r => r.validation.risks_flagged))
      [] k
    rw [this]
    cases h : (((results.filter (fun r => r.success)).flatMap
        (fun r => r.validation.risks_flagged)).filter (fun x => x = k)).length <;>
      simp [jsGet, h]
  · intro p hp hstrict
    have hperm := List.perm_insertionSort riskGE tally
    have hsorted := List.sorted_insertionSort riskGE tally
    have hpmem : p ∈ tally.insertionSort riskGE := hperm.mem_iff.mpr hp
    obtain ⟨h0, rest, hcons⟩ : ∃ h0 rest, tally.insertionSort riskGE = h0 :: rest := by
      cases hh : tally.insertionSort riskGE with
      | nil => rw [hh] at hpmem; cases hpmem
      | cons h0 rest => exact ⟨h0, rest, rfl⟩
    have hh0 : h0 = p := by
      by_contra hne
      have hh0mem : h0 ∈ tally := hperm.mem_iff.mp (by rw [hcons]; exact List.mem_cons_self _ _)
      have hlt : h0.2 < p.2 := hstrict h0 hh0mem hne
      rw [hcons] at hpmem
      rcases List.mem_cons.mp hpmem with h | h
      · exact hne (h ▸ rfl)
      · rw [hcons, List.sorted_cons] at hsorted
        have : p.2 ≤ h0.2 := hsorted.1 p h
        omega
    rw [hshow, topRisksOf, hcons, hh0]
    rfl

theorem top_risks_spec_witness :
    ∃ res : FileResult, res.success = true ∧
      res.validation.risks_flagged = ["R2", "R1", "R1"] ∧
      (processAuditData emptyBlueprint [res]).summary.quality_summary.top_risks.head? =
        some ⟨"R1", 2⟩ := by
  refine ⟨{ file_id := "f", filename := "f", pipeline_id := "p", success := true,
            metrics := [], validation := ⟨[], [], ["R2", "R1", "R1"]⟩,
            timing_ms := 0, hash := "h" }, rfl, rfl, ?_⟩
  exact (top_risks_spec emptyBlueprint _).2.2.2.2.2.2 ("R1", 2) (by decide) (by decide)

/-! ## Theorems: ReadinessScorer and ComplianceClassifier -/

theorem cast_if_zero_one (n : ℕ) :
    (((if n = 0 then 1 else n : ℕ)) : ℚ) = max (n : ℚ) 1 := by
  by_cases h : n = 0
  · simp [h]
  · have h1 : (1 : ℚ) ≤ (n : ℚ) := by
      have : 1 ≤ n := Nat.one_le_iff_ne_zero.mpr h
      exact_mod_cast this
    simp [h, max_eq_left h1]

/-- C6: `readinessScore` is `clamp(coverageRate − errorPenalty, 0, 100)`
with `coverageRate = successCount/totalFiles*100` (0 when `totalFiles`
is 0) and `errorPenalty = failCount/max(totalFiles,1)*50`; it always lies
in [0,100], is 0 when `total_files = 0`, and depends only on
`(totalFiles, successCount, failCount)`. -/
theorem readiness_score_spec (bp : AuditBlueprint) (results : List FileResult) :
    (processAuditData bp results).readinessScore =
      max 0 (min 100
        ((if results.length > 0
          then ((results.filter (fun r => r.success)).length : ℚ) / (results.length : ℚ) * 100
          else 0) -
         ((results.filter (fun r => !r.success)).length : ℚ) /
           max (results.length : ℚ) 1 * 50)) ∧
    0 ≤ (processAuditData bp results).readinessScore ∧
    (processAuditData bp results).readinessScore ≤ 100 ∧
    ((processAuditData bp results).summary.total_files = 0 →
      (processAuditData bp results).readinessScore = 0) ∧
    (∀ (bp2 : AuditBlueprint) (results2 : List FileResult),
      results2.length = results.length →
      (results2.filter (fun r => r.success)).length =
        (results.filter (fun r => r.success)).length →
      (results2.filter (fun r => !r.success)).length =
        (results.filter (fun r => !r.success)).length →
      (processAuditData bp2 results2).readinessScore =
        (processAuditData bp results).readinessScore) := by
  refine ⟨?_, ?_, ?_, ?_, ?_⟩
  · show readinessScoreOf _ _ _ = _
    rw [readinessScoreOf, coverageRate, errorPenalty, cast_if_zero_one]
  · exact le_max_left 0 _
  · exact max_le (by norm_num) (min_le_left 100 _)
  · intro h0
    have hz : results.length = 0 := h0
    have hnil : results = [] := List.length_eq_zero.mp hz
    subst hnil
    show readinessScoreOf 0 0 0 = 0
    rw [readinessScoreOf, coverageRate, errorPenalty]
    norm_num [min_def, max_def]
  · intro bp2 results2 h1 h2 h3
    show readinessScoreOf _ _ _ = readinessScoreOf _ _ _
    rw [h1, h2, h3]

theorem readiness_score_spec_witness :
    (processAuditData emptyBlueprint []).summary.total_files = 0 ∧
    (processAuditData emptyBlueprint []).readinessScore = 0 := by
  exact ⟨rfl, (readiness_score_spec emptyBlueprint []).2.2.2.1 rfl⟩

theorem opinionOf_iff (score : ℚ) (failCount totalFiles : ℕ) (anomalies : List String) :
    (opinionOf score failCount totalFiles anomalies = .FAIL ↔
      score < 60 ∨ (failCount : ℚ) > (totalFiles : ℚ) * (0.2 : ℚ)) ∧
    (opinionOf score failCount totalFiles anomalies = .CONDITIONAL ↔
      ¬(score < 60 ∨ (failCount : ℚ) > (totalFiles : ℚ) * (0.2 : ℚ)) ∧
        (score < 85 ∨ anomalies ≠ [])) ∧
    (opinionOf score failCount totalFiles anomalies = .PASS ↔
      ¬(score < 60 ∨ (failCount : ℚ) > (totalFiles : ℚ) * (0.2 : ℚ)) ∧
        ¬(score < 85 ∨ anomalies ≠ [])) := by
  by_cases h1 : score < 60 ∨ (failCount : ℚ) > (totalFiles : ℚ) * (0.2 : ℚ) <;>
    by_cases h2 : score < 85 ∨ anomalies ≠ [] <;>
    simp [opinionOf, h1, h2, List.length_pos]

/-- C5: the opinion is FAIL iff `score < 60` or
`failCount > 0.2*totalFiles` (evaluated first), else CONDITIONAL iff
`score < 85` or the anomaly list is non-empty, else PASS; and the
`totalFiles = 0` edge case (empty blueprint requirements, no results)
yields score 0, opinion FAIL, and no actions. -/
theorem opinion_spec (bp : AuditBlueprint) (results : List FileResult) :
    ((processAuditData bp results).opinion = .FAIL ↔
      (processAuditData bp results).readinessScore < 60 ∨
        ((processAuditData bp results).summary.fail_count : ℚ) >
          ((processAuditData bp results).summary.total_files : ℚ) * (0.2 : ℚ)) ∧
    ((processAuditData bp results).opinion = .CONDITIONAL ↔
      ¬((processAuditData bp results).readinessScore < 60 ∨
        ((processAuditData bp results).summary.fail_count : ℚ) >
          ((processAuditData bp results).summary.total_files : ℚ) * (0.2 : ℚ)) ∧
        ((processAuditData bp results).readinessScore < 85 ∨
          (processAuditData bp results).summary.quality_summary.anomalies ≠ [])) ∧
    ((processAuditData bp results).opinion = .PASS ↔
      ¬((processAuditData bp results).readinessScore < 60 ∨
        ((processAuditData bp results).summary.fail_count : ℚ) >
          ((processAuditData bp results).summary.total_files : ℚ) * (0.2 : ℚ)) ∧
        ¬((processAuditData bp results).readinessScore < 85 ∨
          (processAuditData bp results).summary.quality_summary.anomalies ≠ [])) ∧
    (processAuditData emptyBlueprint []).summary.total_files = 0 ∧
    (processAuditData emptyBlueprint []).readinessScore = 0 ∧
    (processAuditData emptyBlueprint []).opinion = .FAIL ∧
    (processAuditData emptyBlueprint []).actions = [] := by
  obtain ⟨hf, hc, hp⟩ :=
    opinionOf_iff (processAuditData bp results).readinessScore
      (processAuditData bp results).summary.fail_count
      (processAuditData bp results).summary.total_files
      (processAuditData bp results).summary.quality_summary.anomalies
  have hzero : (processAuditData emptyBlueprint []).readinessScore = 0 := by
    show readinessScoreOf 0 0 0 = 0
    rw [readinessScoreOf, coverageRate, errorPenalty]
    norm_num [min_def, max_def]
  refine ⟨hf, hc, hp, rfl, hzero, ?_, rfl⟩
  show opinionOf (readinessScoreOf 0 0 0) 0 0 [] = .FAIL
  have h0 : readinessScoreOf 0 0 0 = 0 := hzero
  rw [h0, opinionOf, if_pos]
  left
  norm_num

/-! ## Theorems: ActionRecommender (C7) -/

/-- C7 fails on the code: with failed categories seen in order A, B, B,
`failure_breakdown` is `{A:1, B:2}`, yet the single reprocess action
(priority high, topic "Data Integrity") cites "Top error: A" — the first
key in insertion order via `Object.keys(failureBreakdown)[0]` — while the
most-frequent category, which the claim requires, is "B" with count 2. -/
theorem action_cites_insertion_order_not_most_frequent :
    (processAuditData emptyBlueprint
        [failedResultA, failedResultB1, failedResultB2]).summary.failure_breakdown =
      [("A", 1), ("B", 2)] ∧
    (processAuditData emptyBlueprint
        [failedResultA, failedResultB1, failedResultB2]).actions =
      [⟨.reprocess, "Investigate and re-upload 3 failed documents. Top error: A.",
        .high, "Data Integrity"⟩] ∧
    topErrorCited [("A", 1), ("B", 2)] = "A" ∧
    (∀ kv ∈ [(("A", 1) : String × ℕ), ("B", 2)], kv.2 ≤ 2) ∧
    jsGet [(("A", 1) : String × ℕ), ("B", 2)] "B" = some 2 ∧
    jsGet [(("A", 1) : String × ℕ), ("B", 2)] "A" = some 1 := by
  refine ⟨by decide, by decide, by decide, by decide, by decide, by decide⟩

end Esg
